import Mathlib

/-!
Shallow embedding of the laudare_be learning-platform backend
(`src/services/*.py`, `src/schemas/schemas.py`, `src/main.py`).

Modelling conventions:
* MongoDB collections are Lean lists of records; `insert_one` appends and
  assigns a fresh numeric `_id` from a store counter (Mongo guarantees `_id`
  uniqueness per collection via its mandatory unique index).
* BSON ObjectIds handled as strings: a user id is the 24-hex-char string the
  API receives; `ObjectId(s)` after `ObjectId.is_valid(s)` is the identity.
* `datetime.utcnow()` is modelled by one `now : Nat` parameter per request
  (all utcnow calls inside one request map to the same tick).
* Python dict payloads returned to the client are association lists
  `List (String × Value)` so that "contains field k" is `lookup k ≠ none`,
  matching `dict.pop` / key presence in the source serializers.
* `raise HTTPException` is `Except.error`; in every service the raise occurs
  before any write, which the `Except`-before-state-change structure mirrors.
* Pydantic `Optional[T] = default`: an omitted JSON field yields the default,
  an explicit `null` yields `None`.  Where that distinction matters
  (`CourseProgressUpdate.completed`) the payload field is built through a
  constructor taking `Option (Option Bool)` (`none` = field omitted).
-/

/-- JSON-ish values appearing in serialized responses. -/
inductive Value where
  | vnull : Value
  | vstr : String → Value
  | vnat : Nat → Value
  | vbool : Bool → Value
  | vstrlist : List String → Value
deriving DecidableEq, Repr

/-- A serialized Python dict: ordered association list of fields. -/
abbrev Doc := List (String × Value)

/-- Source: `dict.pop(k, None)`: drop every binding of key `k`. -/
def popKey (k : String) (d : Doc) : Doc :=
  d.filter (fun p => p.1 ≠ k)

/-- Source: `attempt.get("course_slug")` — None serializes to null. -/
def optStrValue : Option String → Value
  | some s => Value.vstr s
  | none => Value.vnull

/-- Source: `HTTPException(status_code, detail={"message": ...})`. -/
structure HErr where
  status : Nat
  message : String
deriving DecidableEq, Repr

/-- bson `ObjectId.is_valid` on a string: 24 hex characters. -/
def isHexChar (c : Char) : Bool :=
  c.isDigit || (('a' ≤ c) && (c ≤ 'f')) || (('A' ≤ c) && (c ≤ 'F'))

def objectIdIsValid (s : String) : Bool :=
  s.length == 24 && s.data.all isHexChar

/-- Source: `auth_services.validate_object_id`: 400 on malformed id, else the id. -/
def validate_object_id (user_id : String) : Except HErr String :=
  if objectIdIsValid user_id then Except.ok user_id
  else Except.error ⟨400, "Invalid user ID"⟩

/-- Source: `users` collection document (fields written by `register_user`). -/
structure User where
  _id : String
  email : String
  password : String
  first_name : String
  last_name : String
  role : String
  is_active : Bool
  created_at : Nat
deriving DecidableEq, Repr

/-- Source: `user_profiles` document (fields written by `seed_user_data`). -/
structure Profile where
  _id : Nat
  user_id : String
  role : String
  registered_courses : List String
  created_at : Nat
deriving DecidableEq, Repr

/-- Source: `course_catalog` document.  `category`/`difficulty` are `Option` because
`enroll_course` reads them via `dict.get` with a caller-supplied default. -/
structure CatalogEntry where
  _id : Nat
  slug : String
  title : String
  description : String
  category : Option String
  difficulty : Option String
  created_at : Nat
deriving DecidableEq, Repr

/-- Source: `user_courses` document (one enrollment). -/
structure Enrollment where
  _id : Nat
  user_id : String
  course_slug : String
  category : String
  difficulty : String
  progress : Nat
  completed : Bool
  last_accessed : Option Nat
  enrolled_at : Option Nat
deriving DecidableEq, Repr

/-- Source: `quiz_questions` document (fields written by `create_question`). -/
structure Question where
  _id : Nat
  quiz_id : String
  question : String
  options : List String
  correct_answer : String
  explanation : Option String
  points : Nat
  question_type : String
  created_at : Nat
deriving DecidableEq, Repr

/-- Source: `quiz_progress` document.  `progress_increment`/`new_progress` are
`Option` because the source adds those dict keys only on a progress bump. -/
structure Attempt where
  _id : Nat
  user_id : String
  quiz_id : String
  course_slug : Option String
  score : Nat
  passed : Bool
  attempted_at : Nat
  progress_increment : Option Nat
  new_progress : Option Nat
deriving DecidableEq, Repr

/-- Source: `game_progress` document (fields written by `seed_user_data`). -/
structure GameProgress where
  _id : Nat
  user_id : String
  game_id : String
  level : Nat
  xp : Nat
  last_played : Option Nat
deriving DecidableEq, Repr

/-- The document store (`database.database` collection handles). -/
structure Store where
  users : List User
  user_profiles : List Profile
  user_courses : List Enrollment
  course_catalog : List CatalogEntry
  quiz_questions : List Question
  quiz_progress : List Attempt
  game_progress : List GameProgress
  nextId : Nat
deriving DecidableEq, Repr

/-- Source: `user_courses_collection.find_one({"user_id": uid, "course_slug": slug})`. -/
def findEnrollment (s : Store) (uid slug : String) : Option Enrollment :=
  s.user_courses.find? (fun e => e.user_id == uid && e.course_slug == slug)

/-- Source: `course_catalog_collection.find_one({"slug": slug})`. -/
def findCatalog (s : Store) (slug : String) : Option CatalogEntry :=
  s.course_catalog.find? (fun c => c.slug == slug)

/-- Source: `update_one({"_id": id}, {"$set": ...})` on `user_courses`: rewrite the
first (in Mongo: the unique) document with the given `_id`. -/
def updateFirstEnrollment (l : List Enrollment) (id : Nat)
    (f : Enrollment → Enrollment) : List Enrollment :=
  match l with
  | [] => []
  | e :: rest =>
    if e._id == id then f e :: rest else e :: updateFirstEnrollment rest id f

/-- Source: `quiz_services.serialize_question`. -/
def serialize_question (q : Question) : Doc :=
  [("id", Value.vstr (toString q._id)),
   ("quizId", Value.vstr q.quiz_id),
   ("question", Value.vstr q.question),
   ("options", Value.vstrlist q.options),
   ("correctAnswer", Value.vstr q.correct_answer),
   ("explanation", match q.explanation with
                   | some s => Value.vstr s
                   | none => Value.vnull),
   ("points", Value.vnat q.points),
   ("questionType", Value.vstr q.question_type)]

/-- Source: `quiz_services.serialize_quiz_attempt` (note its fixed key list: it never
emits `progressIncrement` or `newProgress`). -/
def serialize_quiz_attempt (a : Attempt) : Doc :=
  [("id", Value.vstr (toString a._id)),
   ("userId", Value.vstr a.user_id),
   ("quizId", Value.vstr a.quiz_id),
   ("courseSlug", optStrValue a.course_slug),
   ("score", Value.vnat a.score),
   ("passed", Value.vbool a.passed),
   ("attemptedAt", Value.vnat a.attempted_at)]

/-- Source: `schemas.QuizAttemptCreate` (`score` is input-validated into [0,100]). -/
structure QuizAttemptCreate where
  quizId : String
  score : Nat
  courseSlug : Option String
deriving DecidableEq, Repr

/-- Python truthiness of `payload.courseSlug`: `None` and `""` are falsy. -/
def courseSlugTruthy : Option String → Bool
  | some s => s ≠ ""
  | none => false

/-- Source: `QuizService.submit_quiz_attempt`.  Returns the post store, the response
message, and the serialized attempt (`data`). -/
def submit_quiz_attempt (user_id : String) (payload : QuizAttemptCreate)
    (now : Nat) (s : Store) : Except HErr (Store × String × Doc) :=
  match validate_object_id user_id with
  | Except.error err => Except.error err
  | Except.ok oid =>
  let passed : Bool := payload.score ≥ 60
  let base : Attempt :=
    { _id := 0, user_id := oid, quiz_id := payload.quizId,
      course_slug := payload.courseSlug, score := payload.score,
      passed := passed, attempted_at := now,
      progress_increment := none, new_progress := none }
  let (s1, att) :=
    if passed && courseSlugTruthy payload.courseSlug then
      match findEnrollment s oid (payload.courseSlug.getD ("")) with
      | some course =>
        let new_progress := min (course.progress + 10) 100
        let completed : Bool := new_progress ≥ 100
        let s' := { s with user_courses :=
          updateFirstEnrollment s.user_courses course._id (fun e =>
            { e with progress := new_progress, completed := completed,
                     last_accessed := some now }) }
        (s', { base with progress_increment := some 10,
                         new_progress := some new_progress })
      | none => (s, base)
    else (s, base)
  let att := { att with _id := s1.nextId }
  let s2 := { s1 with quiz_progress := s1.quiz_progress ++ [att],
                      nextId := s1.nextId + 1 }
  Except.ok (s2,
    "Quiz attempt recorded" ++
      (if (payload.score ≥ 60 : Bool) && courseSlugTruthy payload.courseSlug
       then (" and progress updated") else ("")),
    serialize_quiz_attempt att)

/-- Source: `QuizService.get_quiz_questions`: serialized questions for a quiz with
`correctAnswer` popped. -/
def get_quiz_questions (quiz_id : String) (s : Store) : List Doc :=
  (s.quiz_questions.filter (fun q => q.quiz_id == quiz_id)).map
    (fun q => popKey ("correctAnswer") (serialize_question q))

/-- Source: `QuizService.get_all_quiz_questions`: every question, fully serialized. -/
def get_all_quiz_questions (s : Store) : List Doc :=
  s.quiz_questions.map serialize_question

/-- Source: `schemas.QuestionCreate` payload fields. -/
structure QuestionCreate where
  quizId : String
  question : String
  options : List String
  correctAnswer : String
  explanation : Option String
  points : Nat
  questionType : String
deriving DecidableEq, Repr

/-- The `QuestionCreate` pydantic validators: ≥ 2 options, `correctAnswer`
a member of `options`, `points ≥ 1`. -/
def questionCreateValid (p : QuestionCreate) : Bool :=
  (p.options.length ≥ 2 : Bool) && p.options.contains p.correctAnswer
    && (p.points ≥ 1 : Bool)

/-- Source: `QuizService.create_question`: stores the question under the
path-addressed `quiz_id` (the payload's own `quizId` is never read). -/
def create_question (quiz_id : String) (payload : QuestionCreate)
    (now : Nat) (s : Store) : Store × String × Doc :=
  let q : Question :=
    { _id := s.nextId, quiz_id := quiz_id, question := payload.question,
      options := payload.options, correct_answer := payload.correctAnswer,
      explanation := payload.explanation, points := payload.points,
      question_type := payload.questionType, created_at := now }
  ({ s with quiz_questions := s.quiz_questions ++ [q], nextId := s.nextId + 1 },
   "Question created successfully", serialize_question q)

/-- Source: `course_services.serialize_course`. -/
def serialize_course (c : Enrollment) : Doc :=
  [("id", Value.vstr (toString c._id)),
   ("userId", Value.vstr c.user_id),
   ("courseSlug", Value.vstr c.course_slug),
   ("category", Value.vstr c.category),
   ("difficulty", Value.vstr c.difficulty),
   ("progress", Value.vnat c.progress),
   ("completed", Value.vbool c.completed),
   ("lastAccessed", match c.last_accessed with
                    | some t => Value.vnat t
                    | none => Value.vnull),
   ("enrolledAt", match c.enrolled_at with
                  | some t => Value.vnat t
                  | none => Value.vnull)]

/-- Source: `schemas.CourseEnroll` (defaults `category="General"`,
`difficulty="Beginner"`). -/
structure CourseEnroll where
  courseSlug : String
  category : String
  difficulty : String
deriving DecidableEq, Repr

/-- Source: `update_one({"user_id": oid}, {"$addToSet": {"registered_courses": slug}})`:
set-add the slug on the first profile matching the user; no-op (no upsert)
when no profile matches. -/
def addToSetFirstProfile (l : List Profile) (oid slug : String) :
    List Profile :=
  match l with
  | [] => []
  | p :: rest =>
    if p.user_id == oid then
      (if p.registered_courses.contains slug then p
       else { p with registered_courses := p.registered_courses ++ [slug] })
        :: rest
    else p :: addToSetFirstProfile rest oid slug

/-- Source: `CourseService.enroll_course`. -/
def enroll_course (user_id : String) (payload : CourseEnroll) (now : Nat)
    (s : Store) : Except HErr (Store × String × Doc) :=
  match validate_object_id user_id with
  | Except.error err => Except.error err
  | Except.ok oid =>
  match findCatalog s payload.courseSlug with
  | none => Except.error ⟨404, "Course not found in catalog"⟩
  | some catalog_course =>
    match findEnrollment s oid payload.courseSlug with
    | some _ => Except.error ⟨400, "Already enrolled in this course"⟩
    | none =>
      let course : Enrollment :=
        { _id := s.nextId, user_id := oid, course_slug := payload.courseSlug,
          category := catalog_course.category.getD payload.category,
          difficulty := catalog_course.difficulty.getD payload.difficulty,
          progress := 0, completed := false,
          last_accessed := some now, enrolled_at := some now }
      let s1 := { s with user_courses := s.user_courses ++ [course],
                         nextId := s.nextId + 1 }
      let s2 := { s1 with user_profiles :=
        addToSetFirstProfile s1.user_profiles oid payload.courseSlug }
      Except.ok (s2, "Course enrolled successfully", serialize_course course)

/-- Source: `schemas.CourseProgressUpdate`: `progress` input-validated into [0,100];
`completed : Optional[bool] = False`. -/
structure CourseProgressUpdate where
  progress : Nat
  completed : Option Bool
deriving DecidableEq, Repr

/-- Pydantic deserialization of a `CourseProgressUpdate` body: the outer
`Option` of `completedField` is whether the JSON field is present
(`none` = omitted → schema default `False`); the inner `Option` is an
explicit JSON `null` vs a boolean. -/
def CourseProgressUpdate.ofBody (progress : Nat)
    (completedField : Option (Option Bool)) : CourseProgressUpdate :=
  { progress := progress, completed := completedField.getD (some false) }

/-- Source: `CourseService.update_course_progress`. -/
def update_course_progress (user_id : String) (course_slug : String)
    (payload : CourseProgressUpdate) (now : Nat) (s : Store) :
    Except HErr (Store × String × Doc) :=
  match validate_object_id user_id with
  | Except.error err => Except.error err
  | Except.ok oid =>
  match findEnrollment s oid course_slug with
  | none => Except.error ⟨404, "Course enrollment not found"⟩
  | some course =>
    let apply : Enrollment → Enrollment := fun e =>
      let e1 := { e with progress := payload.progress,
                         last_accessed := some now }
      match payload.completed with
      | some b => { e1 with completed := b }
      | none => e1
    let s1 := { s with user_courses :=
      updateFirstEnrollment s.user_courses course._id apply }
    let updated := (s1.user_courses.find? (fun e => e._id == course._id)).getD
      (apply course)
    Except.ok (s1, "Course progress updated", serialize_course updated)

/-- Source: `delete_one({"slug": slug})` on the catalog: remove the first matching
document, reporting Mongo's `deleted_count`. -/
def deleteFirstCatalog (l : List CatalogEntry) (slug : String) :
    List CatalogEntry × Nat :=
  match l with
  | [] => ([], 0)
  | c :: rest =>
    if c.slug == slug then (rest, 1)
    else
      let (rest', n) := deleteFirstCatalog rest slug
      (c :: rest', n)

/-- Source: `update_many({"registered_courses": slug}, {"$pull": ...})`: every profile
whose set contains the slug has all its occurrences pulled. -/
def pullSlugFromProfiles (l : List Profile) (slug : String) : List Profile :=
  l.map (fun p =>
    if p.registered_courses.contains slug then
      { p with registered_courses :=
          p.registered_courses.filter (fun c => c ≠ slug) }
    else p)

/-- Source: `CourseCatalogService.delete_course_catalog`. -/
def delete_course_catalog (slug : String) (s : Store) :
    Except HErr (Store × String) :=
  let (catalog', deleted_count) := deleteFirstCatalog s.course_catalog slug
  if deleted_count == 0 then Except.error ⟨404, "Course not found"⟩
  else
    let s1 := { s with course_catalog := catalog' }
    let s2 := { s1 with user_courses :=
      s1.user_courses.filter (fun e => e.course_slug ≠ slug) }
    let s3 := { s2 with user_profiles :=
      pullSlugFromProfiles s2.user_profiles slug }
    Except.ok (s3, "Course deleted successfully")

/-- Source: `delete_one({"_id": oid})` on `users`. -/
def deleteFirstUser (l : List User) (oid : String) : List User × Nat :=
  match l with
  | [] => ([], 0)
  | u :: rest =>
    if u._id == oid then (rest, 1)
    else
      let (rest', n) := deleteFirstUser rest oid
      (u :: rest', n)

/-- Source: `UserService.delete_user`: deletes the user document, then
`user_profiles.delete_many({"user_id": oid})` — nothing else. -/
def delete_user (user_id : String) (s : Store) : Except HErr Store :=
  match validate_object_id user_id with
  | Except.error err => Except.error err
  | Except.ok oid =>
  let (users', deleted_count) := deleteFirstUser s.users oid
  if deleted_count == 0 then Except.error ⟨404, "User not found"⟩
  else
    let s1 := { s with users := users' }
    let s2 := { s1 with user_profiles :=
      s1.user_profiles.filter (fun p => p.user_id ≠ oid) }
    Except.ok s2

/-- One entry of a role's default course list in `seed_services.ROLE_DEFAULTS`. -/
structure DefaultCourse where
  slug : String
  category : String
  difficulty : String
deriving DecidableEq, Repr

/-- One value of the `seed_services.ROLE_DEFAULTS` table. -/
structure RoleDefaults where
  courses : List DefaultCourse
  games : List String
deriving DecidableEq, Repr

/-- Source: `ROLE_DEFAULTS["User"]`. -/
def userRoleDefaults : RoleDefaults :=
  { courses := [⟨"intro_python", "Programming", "Beginner"⟩,
                ⟨"basic_math", "Mathematics", "Beginner"⟩],
    games := ["math_blaster"] }

/-- Source: `ROLE_DEFAULTS["Student"]`. -/
def studentRoleDefaults : RoleDefaults :=
  { courses := [⟨"intro_python", "Programming", "Beginner"⟩,
                ⟨"basic_math", "Mathematics", "Beginner"⟩,
                ⟨"web_dev_basics", "Web Development", "Intermediate"⟩],
    games := ["math_blaster", "code_quest"] }

/-- Source: `ROLE_DEFAULTS["Instructor"]`. -/
def instructorRoleDefaults : RoleDefaults :=
  { courses := [⟨"advanced_python", "Programming", "Advanced"⟩,
                ⟨"machine_learning", "Data Science", "Advanced"⟩],
    games := [] }

/-- The `seed_services.ROLE_DEFAULTS` dict. -/
def ROLE_DEFAULTS : List (String × RoleDefaults) :=
  [("User", userRoleDefaults),
   ("Student", studentRoleDefaults),
   ("Instructor", instructorRoleDefaults)]

/-- Source: `ROLE_DEFAULTS.get(role, ROLE_DEFAULTS["User"])`. -/
def roleDefaultsGet (role : String) : RoleDefaults :=
  (ROLE_DEFAULTS.lookup role).getD userRoleDefaults

/-- The enrollment document `seed_user_data` inserts for one default course. -/
def mkSeedEnrollment (uid : String) (now : Nat) (id : Nat)
    (c : DefaultCourse) : Enrollment :=
  { _id := id, user_id := uid, course_slug := c.slug,
    category := c.category, difficulty := c.difficulty,
    progress := 0, completed := false,
    last_accessed := none, enrolled_at := some now }

/-- The `seed_user_data` course-insertion loop, one insert per default course
(each insert consumes a fresh `_id`). -/
def seedCourseList (uid : String) (now : Nat) :
    Nat → List DefaultCourse → List Enrollment
  | _, [] => []
  | id0, c :: rest =>
    mkSeedEnrollment uid now id0 c :: seedCourseList uid now (id0 + 1) rest

/-- The game-progress document `seed_user_data` inserts for one default game. -/
def mkSeedGame (uid : String) (id : Nat) (g : String) : GameProgress :=
  { _id := id, user_id := uid, game_id := g,
    level := 1, xp := 0, last_played := none }

/-- The `seed_user_data` game-insertion loop. -/
def seedGameList (uid : String) : Nat → List String → List GameProgress
  | _, [] => []
  | id0, g :: rest => mkSeedGame uid id0 g :: seedGameList uid (id0 + 1) rest

/-- Source: `seed_services.seed_user_data`: looks up the role's defaults (falling back
to the `"User"` entry), inserts one profile, one enrollment per default
course, one game-progress record per default game. -/
def seed_user_data (user_id : String) (role : String) (now : Nat)
    (s : Store) : Store :=
  let defaults := roleDefaultsGet role
  let prof : Profile :=
    { _id := s.nextId, user_id := user_id, role := role,
      registered_courses := defaults.courses.map (fun c => c.slug),
      created_at := now }
  let courseId0 := s.nextId + 1
  let gameId0 := courseId0 + defaults.courses.length
  { s with
    user_profiles := s.user_profiles ++ [prof],
    user_courses := s.user_courses ++
      seedCourseList user_id now courseId0 defaults.courses,
    game_progress := s.game_progress ++
      seedGameList user_id gameId0 defaults.games,
    nextId := gameId0 + defaults.games.length }

/-- A well-formed 24-hex-char user ObjectId used by concrete scenarios. -/
def uid0 : String := "0123456789abcdef01234567"

/-- Concrete enrollment of `uid0` in `intro_python` at progress 95. -/
def enr95 : Enrollment :=
  { _id := 5, user_id := uid0, course_slug := "intro_python",
    category := "Programming", difficulty := "Beginner",
    progress := 95, completed := false, last_accessed := some 1,
    enrolled_at := some 0 }

/-- Concrete enrollment of `uid0` in the empty-string course slug
(reachable: the catalog create path accepts `slug = ""`). -/
def enrEmptySlug : Enrollment :=
  { _id := 5, user_id := uid0, course_slug := "",
    category := "General", difficulty := "Beginner",
    progress := 95, completed := false, last_accessed := some 1,
    enrolled_at := some 0 }

/-- Concrete completed enrollment of `uid0` in `intro_python`. -/
def enrDone : Enrollment :=
  { _id := 5, user_id := uid0, course_slug := "intro_python",
    category := "Programming", difficulty := "Beginner",
    progress := 100, completed := true, last_accessed := some 1,
    enrolled_at := some 0 }

/-- Concrete catalog entry for `intro_python`. -/
def catIntro : CatalogEntry :=
  { _id := 1, slug := "intro_python", title := "Intro to Python",
    description := "d", category := some ("Programming"),
    difficulty := some ("Beginner"), created_at := 0 }

/-- Concrete user document with `_id = uid0`. -/
def userA : User :=
  { _id := uid0, email := "a@b.c", password := "h", first_name := "A",
    last_name := "B", role := "User", is_active := true, created_at := 0 }

/-- Concrete profile for `uid0`. -/
def profA : Profile :=
  { _id := 2, user_id := uid0, role := "User",
    registered_courses := ["intro_python", "basic_math"], created_at := 0 }

/-- Store holding only `enr95`. -/
def store95 : Store :=
  { users := [], user_profiles := [], user_courses := [enr95],
    course_catalog := [], quiz_questions := [], quiz_progress := [],
    game_progress := [], nextId := 6 }

/-- Store holding only `enrEmptySlug`. -/
def storeEmptySlug : Store :=
  { store95 with user_courses := [enrEmptySlug] }

/-- Store holding only `enrDone` (a completed enrollment). -/
def storeDone : Store :=
  { store95 with user_courses := [enrDone] }

/-- Store with `intro_python` in the catalog, `uid0` not yet enrolled. -/
def storeCat : Store :=
  { users := [userA], user_profiles := [profA], user_courses := [],
    course_catalog := [catIntro], quiz_questions := [], quiz_progress := [],
    game_progress := [], nextId := 10 }

/-- Store with `uid0`, their profile, and one enrollment. -/
def storeUser : Store :=
  { users := [userA], user_profiles := [profA], user_courses := [enr95],
    course_catalog := [catIntro], quiz_questions := [], quiz_progress := [],
    game_progress := [], nextId := 10 }

/-- Concrete valid `QuestionCreate` payload whose own `quizId` is `"other"`. -/
def qc0 : QuestionCreate :=
  { quizId := "other", question := "2+2?", options := ["3", "4"],
    correctAnswer := "4", explanation := some (""), points := 1,
    questionType := "multiple_choice" }

/-- The attempt document as inserted by `submit_quiz_attempt`. -/
def recordedAttempt (uid : String) (p : QuizAttemptCreate) (now id : Nat)
    (inc newp : Option Nat) : Attempt :=
  { _id := id
    user_id := uid
    quiz_id := p.quizId
    course_slug := p.courseSlug
    score := p.score
    passed := decide (p.score ≥ 60)
    attempted_at := now
    progress_increment := inc
    new_progress := newp }

/-- The enrollment rewrite `submit_quiz_attempt` performs on a bump. -/
def bumpEnrollment (course : Enrollment) (now : Nat) :
    Enrollment → Enrollment := fun e =>
  { e with
      progress := min (course.progress + 10) 100
      completed := decide (min (course.progress + 10) 100 ≥ 100)
      last_accessed := some now }

/-- The enrollment document `enroll_course` inserts. -/
def newEnrollment (uid : String) (p : CourseEnroll) (now : Nat) (s : Store)
    (cat : CatalogEntry) : Enrollment :=
  { _id := s.nextId
    user_id := uid
    course_slug := p.courseSlug
    category := cat.category.getD p.category
    difficulty := cat.difficulty.getD p.difficulty
    progress := 0
    completed := false
    last_accessed := some now
    enrolled_at := some now }

/-- Number of Enrollment documents for a (user, course) pair. -/
def enrollCount (s : Store) (uid slug : String) : Nat :=
  (s.user_courses.filter
    (fun e => e.user_id == uid && e.course_slug == slug)).length

/-- Looking up a key in a doc after popping that key always misses. -/
theorem lookup_popKey (k : String) (d : Doc) : (popKey k d).lookup k = none := by
  induction d with
  | nil => rfl
  | cons p d ih =>
    obtain ⟨k', v⟩ := p
    by_cases h : k' = k
    · simpa [popKey, List.filter, h] using ih
    · have hk : (k == k') = false := by
        simpa using fun hkk => h hkk.symm
      simpa [popKey, List.filter, h, List.lookup, hk] using ih

/-- C9: `get_quiz_questions` strips `correctAnswer` from every returned item,
while `get_all_quiz_questions` returns every stored question serialized with
its `correctAnswer` field included. -/
theorem quiz_questions_redact_correct_answer (quiz_id : String) (s : Store) :
    (∀ d ∈ get_quiz_questions quiz_id s, d.lookup ("correctAnswer") = none)
    ∧ get_all_quiz_questions s = s.quiz_questions.map serialize_question
    ∧ ∀ q ∈ s.quiz_questions,
        (serialize_question q).lookup ("correctAnswer")
          = some (Value.vstr q.correct_answer) := by
  refine ⟨?_, rfl, ?_⟩
  · intro d hd
    simp only [get_quiz_questions, List.mem_map] at hd
    obtain ⟨q, _, rfl⟩ := hd
    exact lookup_popKey _ _
  · intro q _
    rfl

/-- C10: `create_question` stores and returns the question under the
path-addressed `quiz_id`; the payload's own `quizId` field is ignored
entirely, even when the two differ. -/
theorem create_question_uses_path_quiz_id (quiz_id : String)
    (p : QuestionCreate) (now : Nat) (s : Store)
    (hv : questionCreateValid p = true) :
    (∃ q, (create_question quiz_id p now s).1.quiz_questions
          = s.quiz_questions ++ [q] ∧ q.quiz_id = quiz_id)
    ∧ ((create_question quiz_id p now s).2.2).lookup ("quizId")
          = some (Value.vstr quiz_id)
    ∧ ∀ x, create_question quiz_id { p with quizId := x } now s
          = create_question quiz_id p now s := by
  exact ⟨⟨_, rfl, rfl⟩, rfl, fun x => rfl⟩

/-- Witness for C10 at a concrete payload whose `quizId` differs from the
path argument. -/
theorem create_question_uses_path_quiz_id_witness :
    questionCreateValid qc0 = true
    ∧ ((∃ q, (create_question ("quizA") qc0 3 storeCat).1.quiz_questions
          = storeCat.quiz_questions ++ [q] ∧ q.quiz_id = "quizA")
    ∧ ((create_question ("quizA") qc0 3 storeCat).2.2).lookup ("quizId")
          = some (Value.vstr ("quizA"))
    ∧ ∀ x, create_question ("quizA") { qc0 with quizId := x } 3 storeCat
          = create_question ("quizA") qc0 3 storeCat) :=
  ⟨rfl, create_question_uses_path_quiz_id ("quizA") qc0 3 storeCat rfl⟩

/-- C4 (code bug): in `CourseProgressUpdate`, `completed` is declared
`Optional[bool] = False`, so a request body that OMITS `completed`
deserializes to `completed = False`, passes the `is not None` guard in
`update_course_progress`, and overwrites a stored `completed = true` with
`false` — the enrollment's completed flag is not left unchanged. -/
theorem update_progress_omitted_completed_flag_overwritten :
    (CourseProgressUpdate.ofBody 50 none).completed = some false
    ∧ enrDone.completed = true
    ∧ ∃ s' msg d, update_course_progress uid0 ("intro_python")
        (CourseProgressUpdate.ofBody 50 none) 9 storeDone
        = Except.ok (s', msg, d)
      ∧ findEnrollment s' uid0 ("intro_python")
          = some { enrDone with
                     progress := 50
                     completed := false
                     last_accessed := some 9 } :=
  ⟨rfl, rfl, _, _, _, rfl, rfl⟩

/-- Seeded enrollments carry the default-course slugs, in order. -/
theorem seedCourseList_slugs (uid : String) (now : Nat) :
    ∀ (id0 : Nat) (cs : List DefaultCourse),
      (seedCourseList uid now id0 cs).map (fun e => e.course_slug)
        = cs.map (fun c => c.slug) := by
  intro id0 cs
  induction cs generalizing id0 with
  | nil => rfl
  | cons c rest ih => simp [seedCourseList, mkSeedEnrollment, ih]

/-- Every seeded enrollment starts at progress 0, not completed, with no
last-accessed timestamp. -/
theorem seedCourseList_fields (uid : String) (now : Nat) :
    ∀ (id0 : Nat) (cs : List DefaultCourse),
      ∀ e ∈ seedCourseList uid now id0 cs,
        e.user_id = uid ∧ e.progress = 0 ∧ e.completed = false
          ∧ e.last_accessed = none ∧ e.enrolled_at = some now := by
  intro id0 cs
  induction cs generalizing id0 with
  | nil => intro e he; cases he
  | cons c rest ih =>
    intro e he
    rcases List.mem_cons.mp he with he | he
    · subst he; exact ⟨rfl, rfl, rfl, rfl, rfl⟩
    · exact ih _ e he

/-- Seeded game-progress records carry the default game ids, in order. -/
theorem seedGameList_ids (uid : String) :
    ∀ (id0 : Nat) (gs : List String),
      (seedGameList uid id0 gs).map (fun g => g.game_id) = gs := by
  intro id0 gs
  induction gs generalizing id0 with
  | nil => rfl
  | cons g rest ih => simp [seedGameList, mkSeedGame, ih]

/-- Every seeded game-progress record starts at level 1, xp 0, never played. -/
theorem seedGameList_fields (uid : String) :
    ∀ (id0 : Nat) (gs : List String),
      ∀ g ∈ seedGameList uid id0 gs,
        g.user_id = uid ∧ g.level = 1 ∧ g.xp = 0 ∧ g.last_played = none := by
  intro id0 gs
  induction gs generalizing id0 with
  | nil => intro g hg; cases hg
  | cons x rest ih =>
    intro g hg
    rcases List.mem_cons.mp hg with hg | hg
    · subst hg; exact ⟨rfl, rfl, rfl, rfl⟩
    · exact ih _ g hg

/-- C2: `seed_user_data` resolves the role's defaults (falling back to the
`"User"` entry for unknown roles), inserts exactly one Profile whose
`registeredCourses` is the default slug list and whose role is the role
passed in, one Enrollment per default course with progress 0 / not completed
/ null lastAccessed, and one Game Progress record per default game with
level 1 / xp 0 / null lastPlayed. -/
theorem seed_user_data_spec (uid role : String) (now : Nat) (s : Store) :
    (ROLE_DEFAULTS.lookup role = none → roleDefaultsGet role = userRoleDefaults)
    ∧ (seed_user_data uid role now s).user_profiles
        = s.user_profiles ++
          [{ _id := s.nextId
             user_id := uid
             role := role
             registered_courses :=
               (roleDefaultsGet role).courses.map (fun c => c.slug)
             created_at := now }]
    ∧ (seed_user_data uid role now s).user_courses
        = s.user_courses ++
            seedCourseList uid now (s.nextId + 1) (roleDefaultsGet role).courses
    ∧ (seedCourseList uid now (s.nextId + 1)
          (roleDefaultsGet role).courses).map (fun e => e.course_slug)
        = (roleDefaultsGet role).courses.map (fun c => c.slug)
    ∧ (∀ e ∈ seedCourseList uid now (s.nextId + 1)
          (roleDefaultsGet role).courses,
        e.user_id = uid ∧ e.progress = 0 ∧ e.completed = false
          ∧ e.last_accessed = none ∧ e.enrolled_at = some now)
    ∧ (seed_user_data uid role now s).game_progress
        = s.game_progress ++
            seedGameList uid (s.nextId + 1 + (roleDefaultsGet role).courses.length)
              (roleDefaultsGet role).games
    ∧ (seedGameList uid (s.nextId + 1 + (roleDefaultsGet role).courses.length)
          (roleDefaultsGet role).games).map (fun g => g.game_id)
        = (roleDefaultsGet role).games
    ∧ (∀ g ∈ seedGameList uid (s.nextId + 1 + (roleDefaultsGet role).courses.length)
          (roleDefaultsGet role).games,
        g.user_id = uid ∧ g.level = 1 ∧ g.xp = 0 ∧ g.last_played = none)
    ∧ (seed_user_data uid role now s).users = s.users
    ∧ (seed_user_data uid role now s).quiz_progress = s.quiz_progress := by
  refine ⟨?_, rfl, rfl, seedCourseList_slugs uid now _ _,
    seedCourseList_fields uid now _ _, rfl, seedGameList_ids uid _ _,
    seedGameList_fields uid _ _, rfl, rfl⟩
  intro h
  simp [roleDefaultsGet, h]

/-- Witness for C2: seeding an unknown role (`"Admin"`) falls back to the
`"User"` defaults and inserts the corresponding Profile. -/
theorem seed_user_data_spec_witness :
    ROLE_DEFAULTS.lookup ("Admin") = none
    ∧ roleDefaultsGet ("Admin") = userRoleDefaults
    ∧ (seed_user_data uid0 ("Admin") 3 storeCat).user_profiles
        = storeCat.user_profiles ++
          [{ _id := 10
             user_id := uid0
             role := "Admin"
             registered_courses := ["intro_python", "basic_math"]
             created_at := 3 }] :=
  ⟨rfl, (seed_user_data_spec uid0 ("Admin") 3 storeCat).1 rfl,
   (seed_user_data_spec uid0 ("Admin") 3 storeCat).2.1⟩

theorem submitBumpEq (uid c : String) (p : QuizAttemptCreate) (now : Nat)
    (s : Store) (course : Enrollment)
    (hv : objectIdIsValid uid = true)
    (hscore : 60 ≤ p.score)
    (hslug : p.courseSlug = some c) (hne : c ≠ "")
    (hfind : findEnrollment s uid c = some course) :
    submit_quiz_attempt uid p now s = Except.ok
      ({ s with
           user_courses :=
             updateFirstEnrollment s.user_courses course._id
               (bumpEnrollment course now)
           quiz_progress := s.quiz_progress ++
             [recordedAttempt uid p now s.nextId (some 10)
               (some (min (course.progress + 10) 100))]
           nextId := s.nextId + 1 },
       "Quiz attempt recorded and progress updated",
       serialize_quiz_attempt (recordedAttempt uid p now s.nextId (some 10)
         (some (min (course.progress + 10) 100)))) := by
  have hval : validate_object_id uid = Except.ok uid := by
    simp [validate_object_id, hv]
  have hb : ((decide (p.score ≥ 60)) && courseSlugTruthy p.courseSlug)
      = true := by
    rw [hslug]
    simp [courseSlugTruthy, hne]
    exact hscore
  unfold submit_quiz_attempt
  rw [hval]
  rw [hslug] at hb
  rw [hslug]
  simp only [hb, eq_self_iff_true, if_true, Option.getD_some, hfind]
  unfold recordedAttempt bumpEnrollment
  rw [hslug]
  rfl

/-- Reduction of `submit_quiz_attempt` when the bump condition is false
(failing score, or a missing/empty courseSlug): only the attempt insert. -/
theorem submitNoCondEq (uid : String) (p : QuizAttemptCreate) (now : Nat)
    (s : Store)
    (hv : objectIdIsValid uid = true)
    (hcond : ((decide (p.score ≥ 60)) && courseSlugTruthy p.courseSlug)
      = false) :
    submit_quiz_attempt uid p now s = Except.ok
      ({ s with
           quiz_progress := s.quiz_progress ++
             [recordedAttempt uid p now s.nextId none none]
           nextId := s.nextId + 1 },
       "Quiz attempt recorded",
       serialize_quiz_attempt (recordedAttempt uid p now s.nextId none none))
    := by
  have hval : validate_object_id uid = Except.ok uid := by
    simp [validate_object_id, hv]
  unfold submit_quiz_attempt
  rw [hval]
  simp only [hcond, Bool.false_eq_true, if_false]
  unfold recordedAttempt
  rfl

/-- Reduction of `submit_quiz_attempt` with passing score and truthy slug
but no matching enrollment: attempt recorded, no other change. -/
theorem submitNoEnrollEq (uid c : String) (p : QuizAttemptCreate) (now : Nat)
    (s : Store)
    (hv : objectIdIsValid uid = true)
    (hscore : 60 ≤ p.score)
    (hslug : p.courseSlug = some c) (hne : c ≠ "")
    (hfind : findEnrollment s uid c = none) :
    submit_quiz_attempt uid p now s = Except.ok
      ({ s with
           quiz_progress := s.quiz_progress ++
             [recordedAttempt uid p now s.nextId none none]
           nextId := s.nextId + 1 },
       "Quiz attempt recorded and progress updated",
       serialize_quiz_attempt (recordedAttempt uid p now s.nextId none none))
    := by
  have hval : validate_object_id uid = Except.ok uid := by
    simp [validate_object_id, hv]
  have hb : ((decide (p.score ≥ 60)) && courseSlugTruthy p.courseSlug)
      = true := by
    rw [hslug]
    simp [courseSlugTruthy, hne]
    exact hscore
  unfold submit_quiz_attempt
  rw [hval]
  rw [hslug] at hb
  rw [hslug]
  simp only [hb, eq_self_iff_true, if_true, Option.getD_some, hfind]
  unfold recordedAttempt
  rw [hslug]
  rfl

/-- Updating the unique enrollment carrying an `_id` rewrites exactly that
record: `find?` by `_id` afterwards returns the rewritten document. -/
theorem updateFirstEnrollment_find (l : List Enrollment) (e : Enrollment)
    (f : Enrollment → Enrollment) (hf : (f e)._id = e._id)
    (hnd : (l.map (fun x => x._id)).Nodup) (he : e ∈ l) :
    (updateFirstEnrollment l e._id f).find? (fun x => x._id == e._id)
      = some (f e) := by
  induction l with
  | nil => cases he
  | cons a rest ih =>
    rw [List.map_cons, List.nodup_cons] at hnd
    obtain ⟨ha, hnd⟩ := hnd
    by_cases hid : a._id = e._id
    · have hae : a = e := by
        rcases List.mem_cons.mp he with h | h
        · exact h.symm
        · exact absurd (hid ▸ List.mem_map.mpr ⟨e, h, rfl⟩) ha
      subst hae
      have hcond : (a._id == a._id) = true := beq_self_eq_true _
      simp only [updateFirstEnrollment, hcond, if_true]
      exact List.find?_cons_of_pos _ (by simp [hf])
    · have hcond : (a._id == e._id) = false := by
        simpa using hid
      have hmem : e ∈ rest := by
        rcases List.mem_cons.mp he with h | h
        · exact absurd (congrArg Enrollment._id h.symm) hid
        · exact h
      simp only [updateFirstEnrollment, hcond, Bool.false_eq_true, if_false]
      rw [List.find?_cons_of_neg _ (by simpa using hid)]
      exact ih hnd hmem

/-- C1 counterexample: Python truthiness — `if passed and payload.courseSlug`
treats the empty-string courseSlug as absent, so with score 95, courseSlug
`""` and an existing Enrollment for `(uid0, "")` at progress 95, the
Enrollment is NOT updated (progress stays 95 instead of going to 100). -/
theorem submit_quiz_attempt_empty_slug_cex :
    60 ≤ (95 : Nat)
    ∧ findEnrollment storeEmptySlug uid0 ("") = some enrEmptySlug
    ∧ enrEmptySlug.progress = 95
    ∧ ∃ s' msg d,
        submit_quiz_attempt uid0 ⟨"q1", 95, some ("")⟩ 7 storeEmptySlug
          = Except.ok (s', msg, d)
      ∧ s'.user_courses = storeEmptySlug.user_courses :=
  ⟨by decide, rfl, rfl, _, _, _, rfl, rfl⟩

/-- C1 (amended: non-empty courseSlug): a passing attempt (score ≥ 60) with a
non-empty courseSlug and a matching Enrollment sets that Enrollment's
progress to `min(progress + 10, 100)`, completed to `newProgress ≥ 100`, and
lastAccessed to now. -/
theorem submit_quiz_attempt_passing_bump (uid c : String)
    (p : QuizAttemptCreate) (now : Nat) (s : Store) (course : Enrollment)
    (hv : objectIdIsValid uid = true)
    (hscore : 60 ≤ p.score)
    (hslug : p.courseSlug = some c) (hne : c ≠ "")
    (hfind : findEnrollment s uid c = some course)
    (hnd : (s.user_courses.map (fun x => x._id)).Nodup) :
    ∃ s' msg d, submit_quiz_attempt uid p now s = Except.ok (s', msg, d)
      ∧ s'.user_courses.find? (fun x => x._id == course._id)
          = some { course with
                     progress := min (course.progress + 10) 100
                     completed := decide (min (course.progress + 10) 100 ≥ 100)
                     last_accessed := some now } := by
  refine ⟨_, _, _, submitBumpEq uid c p now s course hv hscore hslug hne hfind,
    ?_⟩
  exact updateFirstEnrollment_find s.user_courses course
    (bumpEnrollment course now) rfl hnd (List.mem_of_find?_eq_some hfind)

/-- Witness for C1 at the claim's own instance: Enrollment at progress 95,
passing attempt with score 95 yields progress 100 and completed true. -/
theorem submit_quiz_attempt_passing_bump_witness :
    objectIdIsValid uid0 = true
    ∧ (60 : Nat) ≤ 95
    ∧ "intro_python" ≠ ""
    ∧ findEnrollment store95 uid0 ("intro_python") = some enr95
    ∧ (store95.user_courses.map (fun x => x._id)).Nodup
    ∧ ∃ s' msg d,
        submit_quiz_attempt uid0 ⟨"q1", 95, some ("intro_python")⟩ 7 store95
          = Except.ok (s', msg, d)
      ∧ s'.user_courses.find? (fun x => x._id == enr95._id)
          = some { enr95 with
                     progress := 100
                     completed := true
                     last_accessed := some 7 } :=
  ⟨rfl, by decide, by decide, rfl, by decide,
   by exact submit_quiz_attempt_passing_bump uid0 ("intro_python")
        ⟨"q1", 95, some ("intro_python")⟩ 7 store95 enr95 rfl (by decide) rfl
        (by decide) rfl (by decide)⟩

/-- C6: every accepted submission inserts exactly one Attempt record with
`passed = (score ≥ 60)`; a failing score (score < 60) leaves every
Enrollment untouched. -/
theorem submit_quiz_attempt_records_and_frame (uid : String)
    (p : QuizAttemptCreate) (now : Nat) (s : Store)
    (hv : objectIdIsValid uid = true) :
    ∃ s' msg d a, submit_quiz_attempt uid p now s = Except.ok (s', msg, d)
      ∧ s'.quiz_progress = s.quiz_progress ++ [a]
      ∧ a.passed = decide (p.score ≥ 60)
      ∧ a.score = p.score
      ∧ a.user_id = uid
      ∧ a.quiz_id = p.quizId
      ∧ (p.score < 60 → s'.user_courses = s.user_courses) := by
  by_cases hcond :
      ((decide (p.score ≥ 60)) && courseSlugTruthy p.courseSlug) = true
  · have hscore : 60 ≤ p.score := by
      have := (Bool.and_eq_true _ _).mp hcond
      exact of_decide_eq_true this.1
    obtain ⟨c, hslug, hne⟩ : ∃ c, p.courseSlug = some c ∧ c ≠ "" := by
      have := (Bool.and_eq_true _ _).mp hcond
      cases hp : p.courseSlug with
      | none => rw [hp] at this; exact absurd this.2 (by simp [courseSlugTruthy])
      | some c =>
        rw [hp] at this
        refine ⟨c, rfl, ?_⟩
        simpa [courseSlugTruthy] using this.2
    cases hfind : findEnrollment s uid c with
    | some course =>
      refine ⟨_, _, _, _,
        submitBumpEq uid c p now s course hv hscore hslug hne hfind,
        rfl, rfl, rfl, rfl, rfl, ?_⟩
      intro hlt
      exact absurd hscore (by omega)
    | none =>
      refine ⟨_, _, _, _,
        submitNoEnrollEq uid c p now s hv hscore hslug hne hfind,
        rfl, rfl, rfl, rfl, rfl, fun _ => rfl⟩
  · have hcond' :
        ((decide (p.score ≥ 60)) && courseSlugTruthy p.courseSlug) = false :=
      Bool.not_eq_true _ ▸ eq_false_of_ne_true hcond
    refine ⟨_, _, _, _, submitNoCondEq uid p now s hv ?_,
      rfl, rfl, rfl, rfl, rfl, fun _ => rfl⟩
    exact hcond'

/-- Witness for C6: a failing attempt (score 30) is recorded with
`passed = false` and mutates no Enrollment. -/
theorem submit_quiz_attempt_records_and_frame_witness :
    objectIdIsValid uid0 = true
    ∧ ∃ s' msg d a,
        submit_quiz_attempt uid0 ⟨"q1", 30, some ("intro_python")⟩ 7 store95
          = Except.ok (s', msg, d)
      ∧ s'.quiz_progress = store95.quiz_progress ++ [a]
      ∧ a.passed = decide ((30 : Nat) ≥ 60)
      ∧ a.score = 30
      ∧ a.user_id = uid0
      ∧ a.quiz_id = "q1"
      ∧ ((30 : Nat) < 60 → s'.user_courses = store95.user_courses) :=
  ⟨rfl, by exact (submit_quiz_attempt_records_and_frame uid0
     ⟨"q1", 30, some ("intro_python")⟩ 7 store95 rfl)⟩

/-- C5 counterexample: in a bump situation (score 95, matching Enrollment)
the Attempt RETURNED by `submit_quiz_attempt` carries no `progressIncrement`
and no `newProgress` field — `serialize_quiz_attempt` has a fixed key list
that omits both, so the annotation exists only on the stored record. -/
theorem submit_attempt_returned_doc_missing_increment_cex :
    findEnrollment store95 uid0 ("intro_python") = some enr95
    ∧ ∃ s' msg d,
        submit_quiz_attempt uid0 ⟨"q1", 95, some ("intro_python")⟩ 7 store95
          = Except.ok (s', msg, d)
      ∧ d.lookup ("progressIncrement") = none
      ∧ d.lookup ("newProgress") = none :=
  ⟨rfl, _, _, _, rfl, rfl, rfl⟩

/-- C5 (amended): on a bump the STORED Attempt record is annotated with
`progress_increment = 10` and the resulting `new_progress`, while the
serialized Attempt returned to the caller omits both fields; with no
matching Enrollment the Attempt is still recorded with no increment
annotation and no Enrollment is modified. -/
theorem submit_quiz_attempt_increment_fields (uid c : String)
    (p : QuizAttemptCreate) (now : Nat) (s : Store)
    (hv : objectIdIsValid uid = true)
    (hscore : 60 ≤ p.score)
    (hslug : p.courseSlug = some c) (hne : c ≠ "") :
    (∀ course, findEnrollment s uid c = some course →
      ∃ s' msg d, submit_quiz_attempt uid p now s = Except.ok (s', msg, d)
        ∧ s'.quiz_progress = s.quiz_progress ++
            [recordedAttempt uid p now s.nextId (some 10)
              (some (min (course.progress + 10) 100))]
        ∧ (recordedAttempt uid p now s.nextId (some 10)
            (some (min (course.progress + 10) 100))).progress_increment
              = some 10
        ∧ (recordedAttempt uid p now s.nextId (some 10)
            (some (min (course.progress + 10) 100))).new_progress
              = some (min (course.progress + 10) 100)
        ∧ d = serialize_quiz_attempt (recordedAttempt uid p now s.nextId
            (some 10) (some (min (course.progress + 10) 100)))
        ∧ d.lookup ("progressIncrement") = none
        ∧ d.lookup ("newProgress") = none)
    ∧ (findEnrollment s uid c = none →
      ∃ s' msg d, submit_quiz_attempt uid p now s = Except.ok (s', msg, d)
        ∧ s'.quiz_progress = s.quiz_progress ++
            [recordedAttempt uid p now s.nextId none none]
        ∧ (recordedAttempt uid p now s.nextId none none).progress_increment
            = none
        ∧ s'.user_courses = s.user_courses
        ∧ d.lookup ("progressIncrement") = none) := by
  constructor
  · intro course hfind
    exact ⟨_, _, _, submitBumpEq uid c p now s course hv hscore hslug hne hfind,
      rfl, rfl, rfl, rfl, rfl, rfl⟩
  · intro hfind
    exact ⟨_, _, _, submitNoEnrollEq uid c p now s hv hscore hslug hne hfind,
      rfl, rfl, rfl, rfl⟩

/-- Witness for C5: the bump branch at `store95` (stored record annotated,
returned doc not) and the no-enrollment branch at `storeCat`. -/
theorem submit_quiz_attempt_increment_fields_witness :
    (∃ s' msg d,
        submit_quiz_attempt uid0 ⟨"q1", 95, some ("intro_python")⟩ 7 store95
          = Except.ok (s', msg, d)
      ∧ s'.quiz_progress = store95.quiz_progress ++
          [recordedAttempt uid0 ⟨"q1", 95, some ("intro_python")⟩ 7 6
            (some 10) (some 100)]
      ∧ d.lookup ("progressIncrement") = none)
    ∧ (∃ s' msg d,
        submit_quiz_attempt uid0 ⟨"q1", 95, some ("intro_python")⟩ 7 storeCat
          = Except.ok (s', msg, d)
      ∧ s'.user_courses = storeCat.user_courses
      ∧ d.lookup ("progressIncrement") = none) := by
  constructor
  · obtain ⟨s', msg, d, h1, h2, _, _, _, h6, _⟩ :=
      (submit_quiz_attempt_increment_fields uid0 ("intro_python")
        ⟨"q1", 95, some ("intro_python")⟩ 7 store95 rfl (by decide) rfl
        (by decide)).1 enr95 rfl
    exact ⟨s', msg, d, h1, h2, h6⟩
  · obtain ⟨s', msg, d, h1, _, _, h4, h5⟩ :=
      (submit_quiz_attempt_increment_fields uid0 ("intro_python")
        ⟨"q1", 95, some ("intro_python")⟩ 7 storeCat rfl (by decide) rfl
        (by decide)).2 rfl
    exact ⟨s', msg, d, h1, h4, h5⟩

/-- C3: `enroll_course` fails NotFound (404) when the slug is not in the
Catalog and Conflict (400) when an Enrollment for the pair already exists —
both raises happen before any write, so the store is untouched; a first
enroll on a fresh pair succeeds leaving exactly one Enrollment, and a second
enroll for the same pair then fails Conflict. -/
theorem enroll_course_checks (uid : String) (p : CourseEnroll)
    (now now2 : Nat) (s : Store)
    (hv : objectIdIsValid uid = true) :
    (findCatalog s p.courseSlug = none →
      enroll_course uid p now s
        = Except.error ⟨404, "Course not found in catalog"⟩)
    ∧ (findCatalog s p.courseSlug ≠ none →
       findEnrollment s uid p.courseSlug ≠ none →
      enroll_course uid p now s
        = Except.error ⟨400, "Already enrolled in this course"⟩)
    ∧ (findCatalog s p.courseSlug ≠ none →
       findEnrollment s uid p.courseSlug = none →
      ∃ s1 msg d, enroll_course uid p now s = Except.ok (s1, msg, d)
        ∧ enrollCount s uid p.courseSlug = 0
        ∧ enrollCount s1 uid p.courseSlug = 1
        ∧ enroll_course uid p now2 s1
            = Except.error ⟨400, "Already enrolled in this course"⟩) := by
  have hval : validate_object_id uid = Except.ok uid := by
    simp [validate_object_id, hv]
  refine ⟨?_, ?_, ?_⟩
  · intro h
    unfold enroll_course
    rw [hval, h]
  · intro h1 h2
    obtain ⟨cat, hcat⟩ := Option.ne_none_iff_exists'.mp h1
    obtain ⟨e, he⟩ := Option.ne_none_iff_exists'.mp h2
    unfold enroll_course
    rw [hval]
    dsimp only
    rw [hcat]
    dsimp only
    rw [he]
  · intro h1 h2
    obtain ⟨cat, hcat⟩ := Option.ne_none_iff_exists'.mp h1
    have hcount0 : enrollCount s uid p.courseSlug = 0 := by
      have hnil : s.user_courses.filter
          (fun e => e.user_id == uid && e.course_slug == p.courseSlug) = [] := by
        refine List.filter_eq_nil_iff.mpr ?_
        intro a ha hpa
        have h2x := h2
        unfold findEnrollment at h2x
        rw [List.find?_eq_none] at h2x
        exact h2x a ha hpa
      simp [enrollCount, hnil]
    have heq : enroll_course uid p now s = Except.ok
        ({ s with
             user_courses := s.user_courses ++ [newEnrollment uid p now s cat]
             user_profiles := addToSetFirstProfile s.user_profiles uid
               p.courseSlug
             nextId := s.nextId + 1 },
         "Course enrolled successfully",
         serialize_course (newEnrollment uid p now s cat)) := by
      unfold enroll_course
      rw [hval]
      dsimp only
      rw [hcat]
      dsimp only
      rw [h2]
      rfl
    refine ⟨_, _, _, heq, hcount0, ?_, ?_⟩
    · have hmatch : (fun e => e.user_id == uid && e.course_slug
          == p.courseSlug) (newEnrollment uid p now s cat) = true := by
        simp [newEnrollment]
      have hnil : s.user_courses.filter
          (fun e => e.user_id == uid && e.course_slug == p.courseSlug) = [] := by
        refine List.filter_eq_nil_iff.mpr ?_
        intro a ha hpa
        have h2x := h2
        unfold findEnrollment at h2x
        rw [List.find?_eq_none] at h2x
        exact h2x a ha hpa
      simp [enrollCount, List.filter_append, hnil, hmatch]
    · have hcat1 : findCatalog
          { s with
              user_courses := s.user_courses ++ [newEnrollment uid p now s cat]
              user_profiles := addToSetFirstProfile s.user_profiles uid
                p.courseSlug
              nextId := s.nextId + 1 } p.courseSlug = some cat := hcat
      have henr1 : findEnrollment
          { s with
              user_courses := s.user_courses ++ [newEnrollment uid p now s cat]
              user_profiles := addToSetFirstProfile s.user_profiles uid
                p.courseSlug
              nextId := s.nextId + 1 } uid p.courseSlug
          = some (newEnrollment uid p now s cat) := by
        show (s.user_courses ++ [newEnrollment uid p now s cat]).find?
          (fun e => e.user_id == uid && e.course_slug == p.courseSlug)
          = some (newEnrollment uid p now s cat)
        rw [List.find?_append]
        have h2' : s.user_courses.find?
            (fun e => e.user_id == uid && e.course_slug == p.courseSlug)
            = none := h2
        rw [h2']
        simp [List.find?, newEnrollment]
      unfold enroll_course
      rw [hval]
      dsimp only
      rw [hcat1]
      dsimp only
      rw [henr1]

/-- Witness for C3: 404 on an empty catalog, 400 on an existing enrollment,
and a successful first enroll followed by a Conflict on the second. -/
theorem enroll_course_checks_witness :
    objectIdIsValid uid0 = true
    ∧ findCatalog store95 ("intro_python") = none
    ∧ enroll_course uid0 ⟨"intro_python", "General", "Beginner"⟩ 1 store95
        = Except.error ⟨404, "Course not found in catalog"⟩
    ∧ enroll_course uid0 ⟨"intro_python", "General", "Beginner"⟩ 1 storeUser
        = Except.error ⟨400, "Already enrolled in this course"⟩
    ∧ ∃ s1 msg d,
        enroll_course uid0 ⟨"intro_python", "General", "Beginner"⟩ 1 storeCat
          = Except.ok (s1, msg, d)
      ∧ enrollCount storeCat uid0 ("intro_python") = 0
      ∧ enrollCount s1 uid0 ("intro_python") = 1
      ∧ enroll_course uid0 ⟨"intro_python", "General", "Beginner"⟩ 2 s1
          = Except.error ⟨400, "Already enrolled in this course"⟩ :=
  ⟨rfl, rfl,
   (enroll_course_checks uid0 ⟨"intro_python", "General", "Beginner"⟩ 1 1
     store95 rfl).1 rfl,
   (enroll_course_checks uid0 ⟨"intro_python", "General", "Beginner"⟩ 1 1
     storeUser rfl).2.1 (by decide) (by decide),
   (enroll_course_checks uid0 ⟨"intro_python", "General", "Beginner"⟩ 1 2
     storeCat rfl).2.2 (by decide) rfl⟩

/-- A found catalog slug makes `delete_one` report `deleted_count = 1`. -/
theorem deleteFirstCatalog_found (l : List CatalogEntry) (slug : String)
    (c : CatalogEntry) (h : l.find? (fun x => x.slug == slug) = some c) :
    deleteFirstCatalog l slug = ((deleteFirstCatalog l slug).1, 1) := by
  induction l with
  | nil => simp [List.find?] at h
  | cons a rest ih =>
    by_cases ha : (a.slug == slug) = true
    · simp [deleteFirstCatalog, ha]
    · rw [List.find?_cons_of_neg _ (by simpa using ha)] at h
      have := ih h
      simp only [deleteFirstCatalog, ha, Bool.false_eq_true, if_false]
      rw [this]

/-- Removing the first matching catalog entry shortens the list by one. -/
theorem deleteFirstCatalog_length (l : List CatalogEntry) (slug : String)
    (c : CatalogEntry) (h : l.find? (fun x => x.slug == slug) = some c) :
    (deleteFirstCatalog l slug).1.length + 1 = l.length := by
  induction l with
  | nil => simp [List.find?] at h
  | cons a rest ih =>
    by_cases ha : (a.slug == slug) = true
    · simp [deleteFirstCatalog, ha]
    · rw [List.find?_cons_of_neg _ (by simpa using ha)] at h
      have := ih h
      simp only [deleteFirstCatalog, ha, Bool.false_eq_true, if_false]
      simpa using this

/-- After `pullSlugFromProfiles`, no profile still carries the slug. -/
theorem pullSlugFromProfiles_clean (l : List Profile) (slug : String) :
    ∀ q ∈ pullSlugFromProfiles l slug, slug ∉ q.registered_courses := by
  intro q hq
  simp only [pullSlugFromProfiles, List.mem_map] at hq
  obtain ⟨r, _, rfl⟩ := hq
  by_cases hc : r.registered_courses.contains slug = true
  · simp only [hc, if_true]
    intro hmem
    have := List.of_mem_filter (p := fun c => c ≠ slug) hmem
    simp at this
  · simp only [hc, Bool.false_eq_true, if_false]
    intro hmem
    exact hc (List.elem_eq_true_of_mem hmem)

/-- C7: for a slug present in the Catalog, `delete_course_catalog` removes
that Catalog Entry (list shrinks by exactly one, via first-match delete),
deletes every Enrollment whose courseSlug equals the slug, and pulls the
slug from every Profile's registeredCourses, so no Enrollment or Profile
references the slug afterwards. -/
theorem delete_course_catalog_cascades (slug : String) (s : Store)
    (c : CatalogEntry) (h : findCatalog s slug = some c) :
    ∃ s' msg, delete_course_catalog slug s = Except.ok (s', msg)
      ∧ s'.course_catalog = (deleteFirstCatalog s.course_catalog slug).1
      ∧ s'.course_catalog.length + 1 = s.course_catalog.length
      ∧ (∀ e ∈ s'.user_courses, e.course_slug ≠ slug)
      ∧ (∀ q ∈ s'.user_profiles, slug ∉ q.registered_courses) := by
  have hdel := deleteFirstCatalog_found s.course_catalog slug c h
  have heq : delete_course_catalog slug s = Except.ok
      ({ s with
           course_catalog := (deleteFirstCatalog s.course_catalog slug).1
           user_courses := s.user_courses.filter
             (fun e => e.course_slug ≠ slug)
           user_profiles := pullSlugFromProfiles s.user_profiles slug },
       "Course deleted successfully") := by
    unfold delete_course_catalog
    rw [hdel]
    rfl
  refine ⟨_, _, heq, rfl,
    deleteFirstCatalog_length s.course_catalog slug c h, ?_, ?_⟩
  · intro e he
    have := List.of_mem_filter
      (p := fun (x : Enrollment) => decide (x.course_slug ≠ slug)) he
    simpa using this
  · exact pullSlugFromProfiles_clean s.user_profiles slug

/-- Witness for C7 at `storeUser` (catalog entry, one enrollment, one profile
referencing `intro_python`). -/
theorem delete_course_catalog_cascades_witness :
    findCatalog storeUser ("intro_python") = some catIntro
    ∧ ∃ s' msg, delete_course_catalog ("intro_python") storeUser
        = Except.ok (s', msg)
      ∧ s'.course_catalog
          = (deleteFirstCatalog storeUser.course_catalog ("intro_python")).1
      ∧ s'.course_catalog.length + 1 = storeUser.course_catalog.length
      ∧ (∀ e ∈ s'.user_courses, e.course_slug ≠ "intro_python")
      ∧ (∀ q ∈ s'.user_profiles, "intro_python" ∉ q.registered_courses) :=
  ⟨rfl, delete_course_catalog_cascades ("intro_python") storeUser catIntro rfl⟩

/-- A found user `_id` makes `delete_one` report `deleted_count = 1`. -/
theorem deleteFirstUser_found (l : List User) (oid : String)
    (u : User) (h : l.find? (fun x => x._id == oid) = some u) :
    deleteFirstUser l oid = ((deleteFirstUser l oid).1, 1) := by
  induction l with
  | nil => simp [List.find?] at h
  | cons a rest ih =>
    by_cases ha : (a._id == oid) = true
    · simp [deleteFirstUser, ha]
    · rw [List.find?_cons_of_neg _ (by simpa using ha)] at h
      have := ih h
      simp only [deleteFirstUser, ha, Bool.false_eq_true, if_false]
      rw [this]

/-- C8 counterexample: deleting `uid0` removes the user and the profile but
the Enrollment for `uid0` is still present in the store afterwards. -/
theorem delete_user_leaves_enrollments_cex :
    (storeUser.users.find? (fun u => u._id == uid0)).isSome = true
    ∧ ∃ s', delete_user uid0 storeUser = Except.ok s'
      ∧ enr95 ∈ s'.user_courses
      ∧ enr95.user_id = uid0 :=
  ⟨rfl, _, rfl, by decide, rfl⟩

/-- C8 (amended): `delete_user` removes the user document and every Profile
for the userId, but performs no cascade on the Enrollment Ledger —
`user_courses` is returned unchanged, enrollments for the user included. -/
theorem delete_user_profile_cascade_only (uid : String) (s : Store)
    (u : User)
    (hv : objectIdIsValid uid = true)
    (hu : s.users.find? (fun x => x._id == uid) = some u) :
    ∃ s', delete_user uid s = Except.ok s'
      ∧ s'.users = (deleteFirstUser s.users uid).1
      ∧ (∀ q ∈ s'.user_profiles, q.user_id ≠ uid)
      ∧ s'.user_courses = s.user_courses := by
  have hval : validate_object_id uid = Except.ok uid := by
    simp [validate_object_id, hv]
  have hdel := deleteFirstUser_found s.users uid u hu
  have heq : delete_user uid s = Except.ok
      { s with
          users := (deleteFirstUser s.users uid).1
          user_profiles := s.user_profiles.filter
            (fun q => q.user_id ≠ uid) } := by
    unfold delete_user
    rw [hval]
    dsimp only
    rw [hdel]
    rfl
  refine ⟨_, heq, rfl, ?_, rfl⟩
  intro q hq
  have := List.of_mem_filter
    (p := fun (x : Profile) => decide (x.user_id ≠ uid)) hq
  simpa using this

/-- Witness for C8's amended theorem at `storeUser`. -/
theorem delete_user_profile_cascade_only_witness :
    objectIdIsValid uid0 = true
    ∧ storeUser.users.find? (fun x => x._id == uid0) = some userA
    ∧ ∃ s', delete_user uid0 storeUser = Except.ok s'
      ∧ s'.users = (deleteFirstUser storeUser.users uid0).1
      ∧ (∀ q ∈ s'.user_profiles, q.user_id ≠ uid0)
      ∧ s'.user_courses = storeUser.user_courses :=
  ⟨rfl, rfl, delete_user_profile_cascade_only uid0 storeUser userA rfl rfl⟩
